import Mathlib

/-!
# Verification of the OMERO–Slurm client ("SlurmClient")

Shallow embedding, in Lean 4, of the string- and state-manipulating core of
`src/scripts/slurm/SLURM_Get_Results.py` (class `SlurmClient`) and of the older
client in `src/scripts/slurm/SLURM_CellPose_Segmentation.py`.

Python strings are modelled as Lean `String`s (lists of characters); all the
Python string primitives used by the code (`str.split`, `str.strip`,
`str.isdigit`, `str.upper`, `int(...)`, whitespace `str.split()`) are embedded
below as executable Lean functions over ASCII text, matching CPython behaviour
on the ASCII inputs this client deals with.  Remote command execution is
abstracted by its observable interface: a `CmdResult` record (exit-success
flag, captured stdout/stderr), exactly the surface the Python code branches
on.  A raised Python exception is modelled as the `error` case of `Except`.
-/

namespace SlurmSpec

/-! ## Python string primitives -/

/-- ASCII whitespace, as recognised by Python's `str.strip()` / `str.split()`
(space, tab, newline, carriage return, vertical tab, form feed). -/
def isPySpace (c : Char) : Bool :=
  c = ' ' || c = '\t' || c = '\n' || c = '\r' ||
  c = Char.ofNat 11 || c = Char.ofNat 12

/-- `str.strip()` on a list of characters: drop whitespace on both ends. -/
def pyStripList (cs : List Char) : List Char :=
  ((cs.dropWhile isPySpace).reverse.dropWhile isPySpace).reverse

/-- Python `s.strip()`. -/
def pyStrip (s : String) : String := ⟨pyStripList s.data⟩

/-- Python `s.isdigit()` (ASCII): nonempty and all characters are digits. -/
def pyIsDigit (s : String) : Bool := !s.data.isEmpty && s.data.all Char.isDigit

/-- Numeric value of a decimal digit character. -/
def digitVal (c : Char) : Nat := c.toNat - 48

/-- Value of a big-endian list of decimal digit characters. -/
def digitsToNat (cs : List Char) : Nat := cs.foldl (fun a c => a * 10 + digitVal c) 0

/-- Python `int(s)` for a string `s` that passed `s.isdigit()`:
a plain nonnegative decimal numeral. -/
def pyIntOfDigits (s : String) : Int := (digitsToNat s.data : Int)

/-- One step of Python `s.split(sep)` for a nonempty separator: scan left to
right, cutting at each non-overlapping occurrence of `sep`.  `fuel` only
guides structural recursion; it is initialised to the length of the scanned
text and never runs out on the calls made below. -/
def pySplitGo (sep : List Char) : List Char → List Char → Nat → List (List Char)
  | s, acc, 0 => [acc.reverse ++ s]
  | s, acc, fuel + 1 =>
    match s with
    | [] => [acc.reverse]
    | c :: cs =>
      if sep.isPrefixOf (c :: cs) then
        acc.reverse :: pySplitGo sep ((c :: cs).drop sep.length) [] fuel
      else
        pySplitGo sep cs (c :: acc) fuel

/-- Python `s.split(sep)` for a nonempty separator `sep`: the fragments of `s`
between non-overlapping left-to-right occurrences of `sep` (empty fragments
kept, `["", ""]` for `s = sep`, `[s]` when `sep` does not occur). -/
def pySplit (s sep : String) : List String :=
  (pySplitGo sep.data s.data [] s.data.length).map List.asString

/-- Whitespace tokenisation, Python `s.split()` with no argument: maximal
nonempty runs of non-whitespace characters. -/
def wsTokensGo : List Char → List Char → List String
  | [], acc => if acc.isEmpty then [] else [⟨acc.reverse⟩]
  | c :: cs, acc =>
    if isPySpace c then
      if acc.isEmpty then wsTokensGo cs [] else ⟨acc.reverse⟩ :: wsTokensGo cs []
    else wsTokensGo cs (c :: acc)

/-- Python `s.split()` (no separator argument). -/
def pySplitWs (s : String) : List String := wsTokensGo s.data []

/-- Python `int(s)` returning `none` where CPython raises `ValueError`:
optional sign followed by a nonempty run of decimal digits
(surrounding whitespace tolerated). -/
def pyInt (s : String) : Option Int :=
  match (pyStrip s).data with
  | [] => none
  | '-' :: ds =>
    if !ds.isEmpty && ds.all Char.isDigit then some (-(digitsToNat ds : Int)) else none
  | '+' :: ds =>
    if !ds.isEmpty && ds.all Char.isDigit then some (digitsToNat ds : Int) else none
  | ds =>
    if ds.all Char.isDigit then some (digitsToNat ds : Int) else none

/-- Python `s.upper()` (ASCII). -/
def pyUpper (s : String) : String := ⟨s.data.map Char.toUpper⟩

/-- Boolean substring test: does `pat` occur contiguously inside `s`?  Used to
state the "the rendered command contains ..." properties. -/
def listSub (pat : List Char) : List Char → Bool
  | [] => pat.isEmpty
  | c :: cs => pat.isPrefixOf (c :: cs) || listSub pat cs

/-- `strContains s pat = true` iff `pat` occurs contiguously in `s`. -/
def strContains (s pat : String) : Bool := listSub pat.data s.data

/-- Code-point lexicographic `<` on character lists — CPython's `str < str`. -/
def listLexLt : List Char → List Char → Bool
  | [], [] => false
  | [], _ :: _ => true
  | _ :: _, [] => false
  | a :: as, b :: bs =>
    if a < b then true else if b < a then false else listLexLt as bs

/-- Python string comparison `a < b`. -/
def pyStrLt (a b : String) : Bool := listLexLt a.data b.data

/-- `a ≥ b` in Python string order; the relation `sorted(..., reverse=True)`
sorts by. -/
def strGe (a b : String) : Prop := pyStrLt a b = false

instance : DecidableRel strGe := fun a b => instDecidableEqBool (pyStrLt a b) false

theorem listLexLt_asymm : ∀ as bs, listLexLt as bs = true → listLexLt bs as = false := by
  intro as
  induction as with
  | nil => intro bs h; cases bs with
    | nil => simp [listLexLt] at h
    | cons b bs => simp [listLexLt]
  | cons a as ih =>
    intro bs h
    cases bs with
    | nil => simp [listLexLt] at h
    | cons b bs =>
      simp only [listLexLt] at h ⊢
      rcases lt_trichotomy a b with hab | hab | hab
      · simp [hab, lt_asymm hab]
      · subst hab; simp [lt_irrefl] at h ⊢; exact ih bs h
      · simp [hab, lt_asymm hab] at h

theorem listLexLt_connex :
    ∀ as bs, listLexLt as bs = false → listLexLt bs as = false → as = bs := by
  intro as
  induction as with
  | nil => intro bs h _; cases bs with
    | nil => rfl
    | cons b bs => simp [listLexLt] at h
  | cons a as ih =>
    intro bs h h2
    cases bs with
    | nil => simp [listLexLt] at h2
    | cons b bs =>
      simp only [listLexLt] at h h2
      rcases lt_trichotomy a b with hab | hab | hab
      · simp [hab] at h
      · subst hab; simp [lt_irrefl] at h h2; rw [ih bs h h2]
      · simp [hab] at h2

theorem listLexLt_trans : ∀ as bs cs, listLexLt as bs = true → listLexLt bs cs = true →
    listLexLt as cs = true := by
  intro as
  induction as with
  | nil =>
    intro bs cs h h2
    cases bs with
    | nil => simp [listLexLt] at h
    | cons b bs =>
      cases cs with
      | nil => simp [listLexLt] at h2
      | cons c cs => simp [listLexLt]
  | cons a as ih =>
    intro bs cs h h2
    cases bs with
    | nil => simp [listLexLt] at h
    | cons b bs =>
      cases cs with
      | nil => simp [listLexLt] at h2
      | cons c cs =>
        simp only [listLexLt] at h h2 ⊢
        rcases lt_trichotomy a b with hab | hab | hab
        · rcases lt_trichotomy b c with hbc | hbc | hbc
          · simp [lt_trans hab hbc]
          · subst hbc; simp [hab]
          · simp [hbc, lt_asymm hbc] at h2
        · subst hab
          simp only [lt_irrefl, if_false, if_neg (lt_irrefl a)] at h
          rcases lt_trichotomy a c with hac | hac | hac
          · simp [hac]
          · subst hac
            simp only [lt_irrefl, if_neg (lt_irrefl a)] at h2 ⊢
            exact ih bs cs h h2
          · simp [hac, lt_asymm hac] at h2
        · simp [hab, lt_asymm hab] at h

instance : IsTotal String strGe where
  total a b := by
    unfold strGe pyStrLt
    rcases h : listLexLt a.data b.data with _ | _
    · left; rfl
    · right; exact listLexLt_asymm _ _ h

instance : IsTrans String strGe where
  trans a b c hab hbc := by
    unfold strGe pyStrLt at *
    rcases h : listLexLt a.data c.data with _ | _
    · rfl
    · exfalso
      rcases h2 : listLexLt b.data a.data with _ | _
      · have heq := listLexLt_connex _ _ h2 hab
        rw [heq, h] at hbc
        cases hbc
      · have := listLexLt_trans _ _ _ h2 h
        rw [hbc] at this
        cases this

/-! ## Job-id extraction (`SlurmClient.extract_job_id`)

```python
slurm_job_id = next((int(s.strip()) for s in result.stdout.split(
                    "Submitted batch job") if s.strip().isdigit()), -1)
```
-/

/-- `SlurmClient.extract_job_id`, as a function of the submission command's
captured stdout: split the stdout on the marker phrase, take the first
fragment whose stripped form is a pure digit token and parse it; `-1` when
there is no such fragment. -/
def extract_job_id (stdout : String) : Int :=
  match (pySplit stdout "Submitted batch job").find? (fun s => pyIsDigit (pyStrip s)) with
  | some s => pyIntOfDigits (pyStrip s)
  | none => -1

example : extract_job_id "Submitted batch job 3197\n" = 3197 := by decide
example : extract_job_id "sbatch: error: invalid partition\n" = -1 := by decide
example : extract_job_id "123" = 123 := by decide

/-! ## Remote command results and status polling
(`SlurmClient.check_job_status`, lines 764–814) -/

/-- The observable outcome of one remote command execution (Fabric `Result`):
exit-success flag plus captured stdout and stderr. -/
structure CmdResult where
  ok : Bool
  stdout : String
  stderr : String
deriving Repr, DecidableEq

/-- The failure modes of `check_job_status`.  In the Python code the first two
are both raised as `SSHException`, distinguished by raise site and message:
`remoteCommandError` is the immediate `raise SSHException(f"Result is not
ok")` on a non-success exit, `statusUnavailableError` the `raise` in the
`while`-loop's `else` clause after three empty responses.  `parseError` stands
for the uncaught `ValueError`/`IndexError` CPython would raise while building
the status dict from a malformed nonempty line. -/
inductive PollErr where
  | remoteCommandError
  | statusUnavailableError
  | parseError
deriving Repr, DecidableEq

/-- `sacct -n -o JobId,State,End -X -j {" -j ".join(ids)}`
(`SlurmClient.get_job_status_command`). -/
def get_job_status_command (slurm_job_ids : List Int) : String :=
  "sacct -n -o JobId,State,End -X -j " ++
    String.intercalate " -j " (slurm_job_ids.map toString)

/-- One line of the status parse
`{int(line.split()[0]): line.split()[1] for line in ...}`:
first whitespace token parsed as an integer, second kept as the state string;
`none` where CPython raises (`IndexError` on fewer than two tokens,
`ValueError` on a non-numeric first token). -/
def parseStatusLine (line : String) : Option (Int × String) :=
  match pySplitWs line with
  | t0 :: t1 :: _ => (pyInt t0).map (fun n => (n, t1))
  | _ => none

/-- The status dict built by `check_job_status` from a nonempty stdout:
every nonempty line of the stdout must parse. -/
def parseJobStatuses (stdout : String) : Option (List (Int × String)) :=
  ((pySplit stdout "\n").filter (fun l => l ≠ "")).mapM parseStatusLine

/-- Result of a polling call: the parsed statuses together with the raw
result of the last command execution, or one of the `PollErr` failures. -/
inductive PollResult where
  | ok (statuses : List (Int × String)) (result : CmdResult)
  | err (e : PollErr)
deriving Repr, DecidableEq

/-- The `while retry_status < 3` loop of `check_job_status`.  `backend i` is
the `CmdResult` of the `i`-th remote execution of the status command;
`fuel` is `3 - retry_status`; `attempt` counts executed remote commands and
`slept` the total seconds spent in `timesleep.sleep(3)` — the two counters
instrument the loop so that attempt counts and blocking pauses are provable.
An ok-but-empty stdout sleeps 3 s and retries; a nonempty stdout returns the
parsed statuses; a non-success exit raises immediately; fuel exhaustion is
the loop's `else: raise` after three empty responses. -/
def checkLoopGo (backend : Nat → CmdResult) :
    Nat → Nat → Nat → PollResult × Nat × Nat
  | 0, attempt, slept => (.err .statusUnavailableError, attempt, slept)
  | fuel + 1, attempt, slept =>
    let result := backend attempt
    if result.ok then
      if result.stdout = "" then
        checkLoopGo backend fuel (attempt + 1) (slept + 3)
      else
        match parseJobStatuses result.stdout with
        | some d => (.ok d result, attempt + 1, slept)
        | none => (.err .parseError, attempt + 1, slept)
    else
      (.err .remoteCommandError, attempt + 1, slept)

/-- `SlurmClient.check_job_status`, abstracted over the accounting backend:
returns the outcome together with (number of remote executions, total seconds
slept). -/
def check_job_status (backend : Nat → CmdResult) : PollResult × Nat × Nat :=
  checkLoopGo backend 3 0 0

example :
    check_job_status (fun _ => ⟨true, "", ""⟩) =
      (.err .statusUnavailableError, 3, 9) := by decide
example :
    check_job_status (fun _ => ⟨false, "", "err"⟩) =
      (.err .remoteCommandError, 1, 0) := by decide
example :
    check_job_status (fun n => if n < 2 then ⟨true, "", ""⟩
                               else ⟨true, "12345 COMPLETED", ""⟩) =
      (.ok [(12345, "COMPLETED")] ⟨true, "12345 COMPLETED", ""⟩, 3, 6) := by decide

/-! ## GitHub URL conversion
(`SlurmClient.extract_parts_from_url` / `convert_url`, lines 922–971) -/

/-- Failure modes of the URL conversion: `valueError` is the explicit
`raise ValueError("Invalid GitHub URL")`; `indexError` the uncaught
`IndexError` CPython raises when `tree` is the last path segment. -/
inductive UrlErr where
  | valueError
  | indexError
deriving Repr, DecidableEq

deriving instance DecidableEq for Except

/-- `SlurmClient.extract_parts_from_url`: split the URL on `/`; reject it
unless there are at least 5 segments and segment 2 is `github.com`; the
branch is the segment following a literal `tree` segment, else `master`. -/
def extract_parts_from_url (input_url : String) :
    Except UrlErr (List String × String) :=
  let url_parts := pySplit input_url "/"
  if url_parts.length < 5 ∨ url_parts.get? 2 ≠ some "github.com" then
    .error .valueError
  else if "tree" ∈ url_parts then
    match url_parts.get? (url_parts.indexOf "tree" + 1) with
    | some branch => .ok (url_parts, branch)
    | none => .error .indexError
  else
    .ok (url_parts, "master")

/-- `SlurmClient.convert_url`:
`https://github.com/{url_parts[3]}/{url_parts[4]}/raw/{branch}/descriptor.json`.
The inner `indexError` branch is unreachable: a successful
`extract_parts_from_url` guarantees at least five segments. -/
def convert_url (input_url : String) : Except UrlErr String :=
  match extract_parts_from_url input_url with
  | .error e => .error e
  | .ok (url_parts, branch) =>
    match url_parts.get? 3, url_parts.get? 4 with
    | some p3, some p4 =>
      .ok ("https://github.com/" ++ p3 ++ "/" ++ p4 ++ "/raw/" ++ branch ++
           "/descriptor.json")
    | _, _ => .error .indexError

example :
    convert_url "https://github.com/org/repo" =
      .ok "https://github.com/org/repo/raw/master/descriptor.json" := by decide
example :
    convert_url "https://github.com/org/repo/tree/v2/sub" =
      .ok "https://github.com/org/repo/raw/v2/descriptor.json" := by decide
example :
    convert_url "https://gitlab.com/org/repo" = .error .valueError := by decide
example :
    convert_url "https://github.com/org" = .error .valueError := by decide

/-! ## Progress extraction from log tails
(`SlurmClient.get_active_job_progress`, lines 367–402) -/

/-- `SlurmClient._LOGFILE`: `omero-{slurm_job_id}.log`. -/
def logfileName (slurm_job_id : String) : String :=
  "omero-" ++ slurm_job_id ++ ".log"

/-- `SlurmClient._TAIL_LOG_CMD` rendered by `get_recent_log_command`:
`tail -n {n} {log_file} | strings`. -/
def get_recent_log_command (n : Nat) (log_file : String) : String :=
  "tail -n " ++ toString n ++ " " ++ log_file ++ " | strings"

/-- The failure mode of `get_active_job_progress` when the log tail has no
percentage match: `re.findall(...)[-1]` raises `IndexError`, which is caught
and logged, but the subsequent `return f"Progress: {latest_progress}\n"` then
reads the never-assigned local `latest_progress` and CPython raises
`UnboundLocalError` out of the call. -/
inductive ProgressErr where
  | unboundLocalError
deriving Repr, DecidableEq

/-- `re.findall("\d+%", s)`: all non-overlapping matches of a maximal digit
run immediately followed by `%` (the match includes the `%`), left to right.
`acc` holds the digit run currently being scanned, reversed. -/
def findallPercentGo : List Char → List Char → List String
  | [], _ => []
  | c :: cs, acc =>
    if c.isDigit then findallPercentGo cs (c :: acc)
    else if c = '%' && !acc.isEmpty then
      (⟨acc.reverse ++ ['%']⟩ : String) :: findallPercentGo cs []
    else findallPercentGo cs []

/-- `re.findall("\d+%", s)` on a string. -/
def findallPercent (s : String) : List String := findallPercentGo s.data []

/-- `SlurmClient.get_active_job_progress` with the default pattern `\d+%`,
as a function of the tail command's captured stdout.  When the pattern
matches, the last match is wrapped as `Progress: ...\n`; when it does not,
the call raises `UnboundLocalError` (see `ProgressErr`). -/
def get_active_job_progress (stdout : String) : Except ProgressErr String :=
  match (findallPercent stdout).getLast? with
  | some latest_progress => .ok ("Progress: " ++ latest_progress ++ "\n")
  | none => .error .unboundLocalError

example :
    get_active_job_progress "done 25%\ndone 50%" = .ok "Progress: 50%\n" := by
  decide
example :
    get_active_job_progress "starting up" = .error .unboundLocalError := by
  decide

/-! ## Job listing
(`SlurmClient.list_active_jobs` / `list_completed_jobs` / `list_all_jobs`,
lines 509–566, and `get_jobs_info_command`, lines 568–599) -/

/-- `SlurmClient._ALL_JOBS_CMD` rendered by `get_jobs_info_command`. -/
def get_jobs_info_command (start_time end_time columns states : String) : String :=
  "sacct --starttime " ++ start_time ++ " --endtime " ++ end_time ++
    " --state " ++ states ++ " -o " ++ columns ++ " -n -X "

/-- The accounting query issued by `list_active_jobs`
(`get_jobs_info_command(start_time="now", states="r")`). -/
def list_active_jobs_cmd : String :=
  get_jobs_info_command "now" "now" "JobId" "r"

/-- The accounting query issued by `list_completed_jobs`
(`get_jobs_info_command(states="cd")`). -/
def list_completed_jobs_cmd : String :=
  get_jobs_info_command "2023-01-01" "now" "JobId" "cd"

/-- The accounting query issued by `list_all_jobs`
(`get_jobs_info_command()`). -/
def list_all_jobs_cmd : String :=
  get_jobs_info_command "2023-01-01" "now" "JobId" "r,cd,f,to,rs,dl,nf"

/-- `SlurmClient.list_active_jobs` as a function of the query's stdout:
`result.stdout.strip().split('\n')`, then `job_list.reverse()`. -/
def list_active_jobs (stdout : String) : List String :=
  (pySplit (pyStrip stdout) "\n").reverse

/-- `SlurmClient.list_completed_jobs`: same stdout processing. -/
def list_completed_jobs (stdout : String) : List String :=
  (pySplit (pyStrip stdout) "\n").reverse

/-- `SlurmClient.list_all_jobs`: same stdout processing. -/
def list_all_jobs (stdout : String) : List String :=
  (pySplit (pyStrip stdout) "\n").reverse

example : list_completed_jobs "101\n102\n103\n" = ["103", "102", "101"] := by
  decide
example : list_active_jobs "  \n " = [""] := by decide

/-! ## Archive unpacking (`SlurmClient.get_unzip_command`, lines 1207–1237) -/

/-- The run of whitespace the f-string's backslash line continuations leave
between the parts of the unzip command: the space before each backslash plus
the 20 spaces of indentation of the following source line. -/
def sep21 : String := "                     "

example : sep21.length = 21 := by decide

/-- Default of `get_unzip_command`'s `filter_filetypes` parameter:
TIFF-family images only. -/
def default_filter_filetypes : String := "*.tiff *.tif"

/-- `SlurmClient.get_unzip_command`: one shell command that `mkdir`s the
archive's root plus its `data`, `data/in`, `data/out`, `data/gt`
sub-directories and then `7z`-extracts the files matching `filter_filetypes`
from `{slurm_data_path}/{zipfile}.zip` into `data/in`.  A `None` filter is
replaced by the wildcard `*` (filtering disabled). -/
def get_unzip_command (slurm_data_path zipfile : String)
    (filter_filetypes : Option String) : String :=
  let ff := match filter_filetypes with
            | none => "*"
            | some f => f
  "mkdir " ++ slurm_data_path ++ "/" ++ zipfile ++ sep21 ++
    slurm_data_path ++ "/" ++ zipfile ++ "/data" ++ sep21 ++
    slurm_data_path ++ "/" ++ zipfile ++ "/data/in" ++ sep21 ++
    slurm_data_path ++ "/" ++ zipfile ++ "/data/out" ++ sep21 ++
    slurm_data_path ++ "/" ++ zipfile ++ "/data/gt;" ++ sep21 ++
    "7z e -y -o" ++ slurm_data_path ++ "/" ++ zipfile ++ "/data/in" ++ sep21 ++
    slurm_data_path ++ "/" ++ zipfile ++ ".zip " ++ ff

/-- The command `SlurmClient.unpack_data` renders: `get_unzip_command` with
its default filter. -/
def unpack_data_command (slurm_data_path zipfile : String) : String :=
  get_unzip_command slurm_data_path zipfile (some default_filter_filetypes)

/-! ## Split multi-command output and image-version listing
(`SlurmClient.run_commands_split_out`, lines 469–507, and
`get_image_versions_and_data_files` / `get_all_image_versions_and_data_files`,
lines 1239–1305) -/

/-- Failure modes of the version/data listing: `sshException` is the
`raise SSHException` of `run_commands_split_out` on a non-success exit;
`indexError` the uncaught `IndexError` when the split output has fewer
responses than the code indexes. -/
inductive ListErr where
  | sshException
  | indexError
deriving Repr, DecidableEq

/-- `SlurmClient._OUT_SEP`. -/
def outSep : String := "--split--"

/-- `SlurmClient.run_commands_split_out` as a function of the joined
command's result: on success, `result.stdout.split(self._OUT_SEP)`. -/
def run_commands_split_out (result : CmdResult) : Except ListErr (List String) :=
  if result.ok then .ok (pySplit result.stdout outSep) else .error .sshException

/-- Python `sorted(l, reverse=True)` on strings: descending code-point
lexicographic order.  Since equal strings are indistinguishable, the sorted
sequence is determined by the multiset of elements and any correct descending
sort renders it. -/
def sortedDesc (l : List String) : List String :=
  List.insertionSort strGe l

example : sortedDesc ["v1.0", "v1.3", "v1.2"] = ["v1.3", "v1.2", "v1.0"] := by
  decide

/-- `SlurmClient.get_image_versions_and_data_files`, as a function of the
result of the joined `_VERSION_CMD` / `_DATA_CMD` pair: each split response is
stripped and split into lines; the first (image versions) is returned
`sorted(..., reverse=True)`, the second (data files) in raw order. -/
def get_image_versions_and_data_files (result : CmdResult) :
    Except ListErr (List String × List String) :=
  match run_commands_split_out result with
  | .error e => .error e
  | .ok responses =>
    match responses.map (fun r => pySplit (pyStrip r) "\n") with
    | r0 :: r1 :: _ => .ok (sortedDesc r0, r1)
    | _ => .error .indexError

/-- The `for i, k in enumerate(self.slurm_model_paths)` loop of
`get_all_image_versions_and_data_files`: pair each model key with the
descending sort of its response's lines; `none` models the `IndexError`
raised when the responses run out before the model keys do. -/
def zipSortedVersions : List String → List (List String) →
    Option (List (String × List String))
  | [], _ => some []
  | _ :: _, [] => none
  | k :: ks, r :: rs => (zipSortedVersions ks rs).map (fun t => (k, sortedDesc r) :: t)

/-- `SlurmClient.get_all_image_versions_and_data_files`, as a function of the
ordered model keys (`self.slurm_model_paths` iteration order) and the result
of the joined version/data command list: a model→sorted-versions mapping plus
the last response's lines (the data files, `response_list[-1]`) in raw
order. -/
def get_all_image_versions_and_data_files (model_keys : List String)
    (result : CmdResult) :
    Except ListErr (List (String × List String) × List String) :=
  match run_commands_split_out result with
  | .error e => .error e
  | .ok responses =>
    let response_list := responses.map (fun r => pySplit (pyStrip r) "\n")
    match zipSortedVersions model_keys response_list,
          response_list.getLast? with
    | some resultdict, some last => .ok (resultdict, last)
    | _, _ => .error .indexError

example :
    get_image_versions_and_data_files
      ⟨true, "v1.0\nv1.3\nv1.2\n--split--\na.zip\nb.zip\n", ""⟩ =
      .ok (["v1.3", "v1.2", "v1.0"], ["a.zip", "b.zip"]) := by decide

/-! ## Submission command building
(`SlurmClient.get_workflow_command` / `workflow_params_to_envvars`,
lines 1000–1061, and the older `get_cellpose_command` of
`SLURM_CellPose_Segmentation.py`, lines 341–381) -/

/-- A Python value passed as a workflow parameter, together with the string
CPython's f-string interpolation `f"{value}"` renders it to.  Floats are
carried by their `repr` (e.g. `0.5` ↦ `"0.5"`); embedding IEEE-754 printing
is out of scope and the claims only concern the rendered text. -/
inductive PyVal where
  | int (n : Int)
  | float (r : String)
  | str (s : String)
  | bool (b : Bool)
deriving Repr, DecidableEq

/-- `f"{value}"`. -/
def PyVal.render : PyVal → String
  | .int n => toString n
  | .float r => r
  | .str s => s
  | .bool true => "True"
  | .bool false => "False"

/-- A Python `dict[str, str]` as an association list in insertion order.
`dictInsert` is `d[k] = v`: overwrite in place if the key exists, append
otherwise. -/
def dictInsert (k v : String) : List (String × String) → List (String × String)
  | [] => [(k, v)]
  | (k', v') :: rest =>
    if k' = k then (k, v) :: rest else (k', v') :: dictInsert k v rest

/-- `d.get(k)` / `d[k]`. -/
def dictLookup (k : String) : List (String × String) → Option String
  | [] => none
  | (k', v') :: rest => if k' = k then some v' else dictLookup k rest

/-- `{**d, **extra}` — merge with last-writer-wins override. -/
def dictMerge (d : List (String × String)) (extra : List (String × String)) :
    List (String × String) :=
  extra.foldl (fun acc kv => dictInsert kv.1 kv.2 acc) d

/-- `SlurmClient.workflow_params_to_envvars`:
`{key.upper(): f"{value}" for key, value in kwargs.items()}`. -/
def workflow_params_to_envvars (kwargs : List (String × PyVal)) :
    List (String × String) :=
  dictMerge [] (kwargs.map (fun kv => (pyUpper kv.1, kv.2.render)))

/-- The per-workflow configuration `get_workflow_command` reads from the
client instance: the three base paths plus the values the three model dicts
hold for the invoked workflow (`slurm_model_paths[workflow.lower()]`,
`slurm_model_jobs[...]`, `slurm_model_images[...]`). -/
structure WorkflowConfig where
  slurm_data_path : String
  slurm_images_path : String
  slurm_script_path : String
  model_path : String
  job_script : String
  model_image : String
deriving Repr, DecidableEq

/-- `"" if x is None else f" --flag={x}"`. -/
def optFlag (flag : String) : Option String → String
  | none => ""
  | some x => " --" ++ flag ++ "=" ++ x

/-- `SlurmClient.get_workflow_command`: the fixed submission environment
(`DATA_PATH`, `IMAGE_PATH`, `IMAGE_VERSION`, `SINGULARITY_IMAGE`) is merged
(`{**sbatch_env, **workflow_env}`) with the upper-cased parameter map, and the
`sbatch` command line is rendered with optional `--time=` / `--mail-user=`
flags and the constant `--output=omero-%4j.log` pattern (the 13 blanks after
the log name are the f-string's backslash continuation: one space plus the
next source line's 12-space indent).  `none` models the `IndexError` CPython
raises in `self.slurm_model_images[...].split("/")[1]` when the configured
image reference has no `/`. -/
def get_workflow_command (cfg : WorkflowConfig)
    (workflow_version input_data : String) (email time : Option String)
    (kwargs : List (String × PyVal)) :
    Option (String × List (String × String)) :=
  match (pySplit cfg.model_image "/").get? 1 with
  | none => none
  | some image =>
    let sbatch_env : List (String × String) :=
      [("DATA_PATH", cfg.slurm_data_path ++ "/" ++ input_data),
       ("IMAGE_PATH", cfg.slurm_images_path ++ "/" ++ cfg.model_path),
       ("IMAGE_VERSION", workflow_version),
       ("SINGULARITY_IMAGE", image ++ "_" ++ workflow_version ++ ".sif")]
    let workflow_env := workflow_params_to_envvars kwargs
    let env := dictMerge sbatch_env workflow_env
    let email_param := optFlag "mail-user" email
    let time_param := optFlag "time" time
    let job_param := time_param ++ email_param
    let sbatch_cmd := "sbatch" ++ job_param ++ " --output=omero-%4j.log " ++
      "            " ++ cfg.slurm_script_path ++ "/" ++ cfg.job_script
    some (sbatch_cmd, env)

/-- The command part of a `get_workflow_command` result (`""` if the builder
raised). -/
def gwcCmd (o : Option (String × List (String × String))) : String :=
  (o.map Prod.fst).getD ""

/-- The environment part of a `get_workflow_command` result (`[]` if the
builder raised). -/
def gwcEnv (o : Option (String × List (String × String))) :
    List (String × String) :=
  (o.map Prod.snd).getD []

/-- `get_cellpose_command` of the older client in
`SLURM_CellPose_Segmentation.py`: fixed env keys `DATA_PATH`, `IMAGE_PATH`,
`IMAGE_VERSION` merged with the five CellPose parameter variables, and the
same optional-flag command line (here on a single source line, so a single
space before the script path). -/
def get_cellpose_command_script (slurm_data_path slurm_images_path
    slurm_script_path : String) (image_version input_data : String)
    (cp_model : String) (nuc_channel prob_threshold cell_diameter : PyVal)
    (email time : Option String) (model job_script : String) :
    String × List (String × String) :=
  let sbatch_env : List (String × String) :=
    [("DATA_PATH", slurm_data_path ++ "/" ++ input_data),
     ("IMAGE_PATH", slurm_images_path ++ "/" ++ model),
     ("IMAGE_VERSION", image_version)]
  let cellpose_env : List (String × String) :=
    [("DIAMETER", cell_diameter.render),
     ("PROB_THRESHOLD", prob_threshold.render),
     ("NUC_CHANNEL", nuc_channel.render),
     ("CP_MODEL", cp_model),
     ("USE_GPU", "true")]
  let env := dictMerge sbatch_env cellpose_env
  let email_param := optFlag "mail-user" email
  let time_param := optFlag "time" time
  let job_param := time_param ++ email_param
  let sbatch_cmd := "sbatch" ++ job_param ++ " --output=omero-%4j.log " ++
    slurm_script_path ++ "/jobs/" ++ job_script
  (sbatch_cmd, env)

/-- The example configuration used for concrete checks: the client's default
paths with a `cellpose` workflow. -/
def cellposeCfg : WorkflowConfig where
  slurm_data_path := "my-scratch/data"
  slurm_images_path := "my-scratch/singularity_images/workflows"
  slurm_script_path := "slurm-scripts"
  model_path := "cellpose"
  job_script := "jobs/cellpose.sh"
  model_image := "torecluik/t_nucleisegmentation-cellpose"

example :
    dictLookup "PROB_THRESHOLD"
      (gwcEnv (get_workflow_command cellposeCfg "v1.2" "exp001" none none
        [("prob_threshold", .float "0.5"), ("nuc_channel", .int 0)])) =
      some "0.5" := by decide

example :
    dictLookup "SINGULARITY_IMAGE"
      (gwcEnv (get_workflow_command cellposeCfg "v1.2" "exp001" none none [])) =
      some "t_nucleisegmentation-cellpose_v1.2.sif" := by decide

example :
    gwcCmd (get_workflow_command cellposeCfg "v1.2" "exp001"
        (some "user@example.org") (some "00:30:00") []) =
      "sbatch --time=00:30:00 --mail-user=user@example.org " ++
      "--output=omero-%4j.log             slurm-scripts/jobs/cellpose.sh" := by
  decide

/-! ## Helper lemmas -/

theorem strExt {a b : String} (h : a.data = b.data) : a = b := by
  cases a
  cases b
  exact congrArg String.mk h

theorem str_data_append (a b : String) : (a ++ b).data = a.data ++ b.data := by
  cases a; cases b; rfl

theorem str_append_ne_empty_of_head (c : Char) (cs : List Char) (a b : String)
    (h : a.data = c :: cs) : a ++ b ≠ "" := by
  intro hcontra
  have hd : (a ++ b).data = [] := by rw [hcontra]
  rw [str_data_append, h] at hd
  simp at hd

theorem isPrefixOf_append_self :
    ∀ (p y : List Char), p.isPrefixOf (p ++ y) = true := by
  intro p
  induction p with
  | nil => intro y; simp [List.isPrefixOf]
  | cons a as ih =>
    intro y
    simp only [List.cons_append, List.isPrefixOf, beq_self_eq_true, Bool.true_and]
    exact ih y

theorem isPrefixOf_extend :
    ∀ (p s y : List Char), p.isPrefixOf s = true → p.isPrefixOf (s ++ y) = true := by
  intro p
  induction p with
  | nil => intro s y _; simp [List.isPrefixOf]
  | cons a as ih =>
    intro s y h
    cases s with
    | nil => simp [List.isPrefixOf] at h
    | cons b bs =>
      simp only [List.isPrefixOf, Bool.and_eq_true, beq_iff_eq] at h ⊢
      exact ⟨h.1, ih bs y h.2⟩

theorem listSub_here : ∀ (p y : List Char), listSub p (p ++ y) = true := by
  intro p y
  cases p with
  | nil => cases y <;> simp [listSub]
  | cons a as =>
    simp only [List.cons_append, listSub, Bool.or_eq_true]
    left
    exact isPrefixOf_append_self (a :: as) y

theorem listSub_extend_left :
    ∀ (x p s : List Char), listSub p s = true → listSub p (x ++ s) = true := by
  intro x
  induction x with
  | nil => intro p s h; simpa using h
  | cons a as ih =>
    intro p s h
    simp only [List.cons_append, listSub, Bool.or_eq_true]
    right
    exact ih p s h

theorem listSub_extend_right :
    ∀ (s p y : List Char), listSub p s = true → listSub p (s ++ y) = true := by
  intro s
  induction s with
  | nil =>
    intro p y h
    simp only [listSub] at h
    simp only [List.nil_append]
    cases y with
    | nil => simpa [listSub] using h
    | cons c cs =>
      have : p = [] := by simpa using h
      subst this
      simp [listSub, List.isPrefixOf]
  | cons a as ih =>
    intro p y h
    simp only [listSub, Bool.or_eq_true] at h ⊢
    rcases h with h | h
    · left; exact isPrefixOf_extend p (a :: as) y h
    · right; exact ih p y h

/-- First-hit specification of `List.find?`: if position `i` holds a
satisfying element and every earlier position does not, `find?` returns it. -/
theorem find?_first {α : Type} (p : α → Bool) :
    ∀ (l : List α) (i : Nat) (x : α), l[i]? = some x → p x = true →
      (∀ (j : Nat) (y : α), j < i → l[j]? = some y → p y = false) →
      l.find? p = some x := by
  intro l
  induction l with
  | nil => intro i x h; simp at h
  | cons a as ih =>
    intro i x h hp hprev
    cases i with
    | zero =>
      simp only [List.getElem?_cons_zero, Option.some.injEq] at h
      subst h
      simp [List.find?_cons_of_pos, hp]
    | succ n =>
      have ha : p a = false := hprev 0 a (Nat.succ_pos n) (by simp)
      rw [List.find?_cons_of_neg _ (by simp [ha])]
      exact ih n x (by simpa using h) hp
        (fun j y hj hget => hprev (j + 1) y (by omega) (by simpa using hget))

theorem dictLookup_insert_self (k v : String) :
    ∀ d, dictLookup k (dictInsert k v d) = some v := by
  intro d
  induction d with
  | nil => simp [dictInsert, dictLookup]
  | cons kv rest ih =>
    obtain ⟨k', v'⟩ := kv
    by_cases h : k' = k
    · simp [dictInsert, dictLookup, h]
    · simp [dictInsert, dictLookup, h, ih]

theorem dictLookup_insert_ne (k k' v : String) (hne : k' ≠ k) :
    ∀ d, dictLookup k (dictInsert k' v d) = dictLookup k d := by
  intro d
  induction d with
  | nil => simp [dictInsert, dictLookup, hne]
  | cons kv rest ih =>
    obtain ⟨k'', v''⟩ := kv
    by_cases h : k'' = k'
    · subst h
      simp [dictInsert, dictLookup, hne]
    · simp only [dictInsert, if_neg h]
      by_cases h2 : k'' = k
      · subst h2
        simp [dictLookup]
      · simp [dictLookup, h2, ih]

theorem dictInsert_fresh (k v : String) :
    ∀ d, (∀ kv ∈ d, kv.1 ≠ k) → dictInsert k v d = d ++ [(k, v)] := by
  intro d
  induction d with
  | nil => intro _; rfl
  | cons kv rest ih =>
    obtain ⟨k', v'⟩ := kv
    intro h
    have hk : k' ≠ k := h (k', v') (by simp)
    simp only [dictInsert, if_neg hk, List.cons_append, List.cons.injEq, true_and]
    exact ih (fun kv hkv => h kv (by simp [hkv]))

theorem dictMerge_fresh :
    ∀ (ws d0 : List (String × String)),
      (∀ kv ∈ ws, ∀ kv0 ∈ d0, kv0.1 ≠ kv.1) →
      (ws.map Prod.fst).Nodup →
      dictMerge d0 ws = d0 ++ ws := by
  intro ws
  induction ws with
  | nil => intro d0 _ _; simp [dictMerge]
  | cons kv rest ih =>
    obtain ⟨k, v⟩ := kv
    intro d0 hfresh hnd
    have step : dictInsert k v d0 = d0 ++ [(k, v)] :=
      dictInsert_fresh k v d0 (fun kv0 h0 => hfresh (k, v) (by simp) kv0 h0)
    have hnd' : (rest.map Prod.fst).Nodup := (List.nodup_cons.mp hnd).2
    have hknr : k ∉ rest.map Prod.fst := (List.nodup_cons.mp hnd).1
    have hfresh' : ∀ kv ∈ rest, ∀ kv0 ∈ d0 ++ [(k, v)], kv0.1 ≠ kv.1 := by
      intro kvr hr kv0 h0
      rcases List.mem_append.mp h0 with h0 | h0
      · exact hfresh kvr (by simp [hr]) kv0 h0
      · simp only [List.mem_singleton] at h0
        subst h0
        intro hcontra
        exact hknr (by simpa [← hcontra] using List.mem_map_of_mem Prod.fst hr)
    calc dictMerge d0 ((k, v) :: rest)
        = dictMerge (dictInsert k v d0) rest := rfl
      _ = dictMerge (d0 ++ [(k, v)]) rest := by rw [step]
      _ = (d0 ++ [(k, v)]) ++ rest := ih (d0 ++ [(k, v)]) hfresh' hnd'
      _ = d0 ++ (k, v) :: rest := by simp

theorem dictLookup_append_of_none (k : String) :
    ∀ d1 d2, dictLookup k d1 = none →
      dictLookup k (d1 ++ d2) = dictLookup k d2 := by
  intro d1
  induction d1 with
  | nil => intro d2 _; rfl
  | cons kv rest ih =>
    obtain ⟨k', v'⟩ := kv
    intro d2 h
    by_cases hk : k' = k
    · simp [dictLookup, hk] at h
    · simp only [dictLookup, if_neg hk] at h
      simp [dictLookup, hk, ih d2 h]

theorem dictLookup_append_of_some (k v : String) :
    ∀ d1 d2, dictLookup k d1 = some v →
      dictLookup k (d1 ++ d2) = some v := by
  intro d1
  induction d1 with
  | nil => intro d2 h; simp [dictLookup] at h
  | cons kv rest ih =>
    obtain ⟨k', v'⟩ := kv
    intro d2 h
    by_cases hk : k' = k
    · simp only [dictLookup, if_pos hk] at h
      simp [dictLookup, hk, h]
    · simp only [dictLookup, if_neg hk] at h
      simp [dictLookup, hk, ih d2 h]

theorem dictLookup_eq_none (k : String) :
    ∀ d, (∀ kv ∈ d, kv.1 ≠ k) → dictLookup k d = none := by
  intro d
  induction d with
  | nil => intro _; rfl
  | cons kv rest ih =>
    obtain ⟨k', v'⟩ := kv
    intro h
    have : k' ≠ k := h (k', v') (by simp)
    simp [dictLookup, this]
    exact ih (fun kv hkv => h kv (by simp [hkv]))

theorem dictLookup_of_mem_nodup (k v : String) :
    ∀ d, (k, v) ∈ d → (d.map Prod.fst).Nodup → dictLookup k d = some v := by
  intro d
  induction d with
  | nil => intro h; simp at h
  | cons kv rest ih =>
    obtain ⟨k', v'⟩ := kv
    intro hmem hnd
    rcases List.mem_cons.mp hmem with h | h
    · injection h with h1 h2
      subst h1
      subst h2
      simp [dictLookup]
    · have hk' : k' ≠ k := by
        intro hcontra
        subst hcontra
        exact (List.nodup_cons.mp hnd).1 (by simpa using List.mem_map_of_mem Prod.fst h)
      simp [dictLookup, hk']
      exact ih h (List.nodup_cons.mp hnd).2

/-! ## Claim theorems -/

/-- **C1** (corrected).  `extract_job_id` splits the captured stdout on the
phrase `Submitted batch job` and returns the integer value of the *first*
fragment whose stripped form is a pure digit token — a rule that agrees with
the claim on well-formed scheduler output (`Submitted batch job N` yields
`N`, and phrase-free non-numeric output yields `-1`), but also accepts the
text *before* the first occurrence of the phrase as a candidate.  This
theorem characterises the behaviour: `-1` is returned exactly when no split
fragment strips to a digit token, the first such fragment wins, and the two
closing conjuncts check the well-formed success and failure outputs. -/
theorem c1_extract_job_id :
    (∀ stdout : String,
      (extract_job_id stdout = -1 ↔
        ∀ s ∈ pySplit stdout "Submitted batch job", pyIsDigit (pyStrip s) = false))
    ∧ (∀ (stdout : String) (i : Nat) (s : String),
        (pySplit stdout "Submitted batch job")[i]? = some s →
        pyIsDigit (pyStrip s) = true →
        (∀ (j : Nat) (t : String), j < i →
          (pySplit stdout "Submitted batch job")[j]? = some t →
          pyIsDigit (pyStrip t) = false) →
        extract_job_id stdout = pyIntOfDigits (pyStrip s))
    ∧ extract_job_id "Submitted batch job 3197\n" = 3197
    ∧ extract_job_id "sbatch: error: Batch job submission failed\n" = -1 := by
  refine ⟨?_, ?_, by decide, by decide⟩
  · intro stdout
    unfold extract_job_id
    cases hfind : (pySplit stdout "Submitted batch job").find?
        (fun s => pyIsDigit (pyStrip s)) with
    | none =>
      constructor
      · intro _ s hs
        simpa using List.find?_eq_none.mp hfind s hs
      · intro _; rfl
    | some s =>
      have hp : pyIsDigit (pyStrip s) = true := by
        simpa using List.find?_some hfind
      have hmem : s ∈ pySplit stdout "Submitted batch job" :=
        List.mem_of_find?_eq_some hfind
      change pyIntOfDigits (pyStrip s) = -1 ↔ _
      constructor
      · intro hcontra
        exfalso
        unfold pyIntOfDigits at hcontra
        generalize digitsToNat (pyStrip s).data = n at hcontra
        omega
      · intro hall
        exfalso
        rw [hall s hmem] at hp
        cases hp
  · intro stdout i s hget hp hprev
    unfold extract_job_id
    rw [find?_first _ _ i s hget hp hprev]

/-- **C1** witness: the amended first-match rule applied to the concrete
output `Submitted batch job 42`, whose fragment at index 1 is the numeric
token ` 42`. -/
theorem c1_extract_job_id_witness :
    (pySplit "Submitted batch job 42" "Submitted batch job")[1]? = some " 42"
    ∧ pyIsDigit (pyStrip " 42") = true
    ∧ extract_job_id "Submitted batch job 42" = pyIntOfDigits (pyStrip " 42") := by
  refine ⟨by decide, by decide,
    c1_extract_job_id.2.1 _ 1 " 42" (by decide) (by decide) ?_⟩
  intro j t hj hget
  interval_cases j
  have h0 : (pySplit "Submitted batch job 42" "Submitted batch job")[0]? =
      some "" := by decide
  rw [h0] at hget
  injection hget with hget
  subst hget
  decide

/-- **C1** counterexample: the stdout `"123"` does not contain the phrase
`Submitted batch job`, yet `extract_job_id` returns `123` — not the sentinel
`-1` the claim requires for every stdout without the phrase (the fragment
before the first phrase occurrence is also considered). -/
theorem c1_extract_job_id_counterexample :
    extract_job_id "123" = 123 ∧ strContains "123" "Submitted batch job" = false := by
  decide

/-- **C2** (confirmed).  For every accounting backend: (a) three ok-but-empty
responses make `check_job_status` fail with the status-unavailable error
after exactly 3 attempts and 3 × 3 s of blocking sleep; (b) empty output
twice followed by a parseable row succeeds on the third attempt having slept
only 2 × 3 s; (c) a non-success exit after `k` empty responses (`k < 3`) is
never retried — the call fails at once with the remote-command error at
attempt `k + 1` with no additional pause. -/
theorem c2_check_job_status :
    ∀ backend : Nat → CmdResult,
      ((∀ i, i < 3 → (backend i).ok = true ∧ (backend i).stdout = "") →
        check_job_status backend = (.err .statusUnavailableError, 3, 9))
      ∧ (∀ d : List (Int × String),
          (backend 0).ok = true → (backend 0).stdout = "" →
          (backend 1).ok = true → (backend 1).stdout = "" →
          (backend 2).ok = true → (backend 2).stdout ≠ "" →
          parseJobStatuses (backend 2).stdout = some d →
          check_job_status backend = (.ok d (backend 2), 3, 6))
      ∧ (∀ k, k < 3 →
          (∀ i, i < k → (backend i).ok = true ∧ (backend i).stdout = "") →
          (backend k).ok = false →
          check_job_status backend = (.err .remoteCommandError, k + 1, 3 * k)) := by
  intro backend
  refine ⟨?_, ?_, ?_⟩
  · intro h
    obtain ⟨h0ok, h0s⟩ := h 0 (by omega)
    obtain ⟨h1ok, h1s⟩ := h 1 (by omega)
    obtain ⟨h2ok, h2s⟩ := h 2 (by omega)
    simp [check_job_status, checkLoopGo, h0ok, h0s, h1ok, h1s, h2ok, h2s]
  · intro d h0ok h0s h1ok h1s h2ok h2s hparse
    simp [check_job_status, checkLoopGo, h0ok, h0s, h1ok, h1s, h2ok, h2s, hparse]
  · intro k hk hempty hfail
    interval_cases k
    · simp [check_job_status, checkLoopGo, hfail]
    · obtain ⟨h0ok, h0s⟩ := hempty 0 (by omega)
      simp [check_job_status, checkLoopGo, h0ok, h0s, hfail]
    · obtain ⟨h0ok, h0s⟩ := hempty 0 (by omega)
      obtain ⟨h1ok, h1s⟩ := hempty 1 (by omega)
      simp [check_job_status, checkLoopGo, h0ok, h0s, h1ok, h1s, hfail]

/-- An accounting backend whose query always succeeds with empty output. -/
def pollBackendAlwaysEmpty : Nat → CmdResult := fun _ => ⟨true, "", ""⟩

/-- An accounting backend that is empty twice, then returns a valid row. -/
def pollBackendThirdTime : Nat → CmdResult := fun n =>
  if n < 2 then ⟨true, "", ""⟩ else ⟨true, "12345 COMPLETED", ""⟩

/-- An accounting backend whose query fails immediately. -/
def pollBackendFailing : Nat → CmdResult := fun _ => ⟨false, "", "sacct: error"⟩

/-- **C2** witness: the three retry-policy scenarios at concrete backends. -/
theorem c2_check_job_status_witness :
    check_job_status pollBackendAlwaysEmpty = (.err .statusUnavailableError, 3, 9)
    ∧ check_job_status pollBackendThirdTime =
        (.ok [(12345, "COMPLETED")] ⟨true, "12345 COMPLETED", ""⟩, 3, 6)
    ∧ check_job_status pollBackendFailing = (.err .remoteCommandError, 1, 0) :=
  ⟨(c2_check_job_status pollBackendAlwaysEmpty).1 (by decide),
   (c2_check_job_status pollBackendThirdTime).2.1 [(12345, "COMPLETED")]
     (by decide) (by decide) (by decide) (by decide) (by decide) (by decide)
     (by decide),
   (c2_check_job_status pollBackendFailing).2.2 0 (by decide) (by decide)
     (by decide)⟩

/-- **C4** (confirmed).  `convert_url` maps the plain repository URL to the
raw descriptor URL on branch `master`, honours the path segment following a
literal `tree` segment as the branch, and rejects every URL with fewer than
5 `/`-separated segments or whose segment 2 is not `github.com` with the
`ValueError` validation error. -/
theorem c4_convert_url :
    convert_url "https://github.com/org/repo" =
      .ok "https://github.com/org/repo/raw/master/descriptor.json"
    ∧ convert_url "https://github.com/org/repo/tree/v2/sub" =
      .ok "https://github.com/org/repo/raw/v2/descriptor.json"
    ∧ (∀ url : String,
        ((pySplit url "/").length < 5 ∨ (pySplit url "/").get? 2 ≠ some "github.com") →
        convert_url url = .error .valueError) := by
  refine ⟨by decide, by decide, ?_⟩
  intro url h
  simp only [convert_url, extract_parts_from_url]
  rw [if_pos h]

/-- **C4** witness: `https://gitlab.com/org/repo` has segment 2 ≠
`github.com` and is rejected with the validation error. -/
theorem c4_convert_url_witness :
    ((pySplit "https://gitlab.com/org/repo" "/").length < 5 ∨
      (pySplit "https://gitlab.com/org/repo" "/").get? 2 ≠ some "github.com")
    ∧ convert_url "https://gitlab.com/org/repo" = .error .valueError :=
  ⟨by decide, c4_convert_url.2.2 _ (by decide)⟩

/-- **C5** (code bug evidence).  On a log tail with no `\d+%` match,
`get_active_job_progress` does *not* return a value: the caught `IndexError`
leaves the local `latest_progress` unassigned and the final
`return f"Progress: {latest_progress}\n"` raises `UnboundLocalError` out of
the call — the intended soft failure (per the code's own exception handler
and docstring) is not delivered.  On a matching tail the last percentage is
returned as `Progress: ...`. -/
theorem c5_get_active_job_progress :
    get_active_job_progress "tail: no progress lines here" =
      .error .unboundLocalError
    ∧ get_active_job_progress "done 25%\ndone 50%" = .ok "Progress: 50%\n"
    ∧ get_recent_log_command 10 (logfileName "987") =
      "tail -n 10 omero-987.log | strings" := by
  refine ⟨by decide, by decide, by decide⟩

/-- The fixed keys of the submission environment. -/
def fixedEnvKeys : List String :=
  ["DATA_PATH", "IMAGE_PATH", "IMAGE_VERSION", "SINGULARITY_IMAGE"]

/-- **C3** (amended).  Whenever the builder succeeds and no two parameters
upper-case to the same environment name nor to one of the four fixed keys,
the environment map built by `get_workflow_command` carries `DATA_PATH` (base
data root + input reference), `IMAGE_PATH` (base image root + the workflow's
image subpath), `IMAGE_VERSION`, and the rendered archive name
`{image}_{version}.sif` under `SINGULARITY_IMAGE`, plus one entry per
workflow parameter, keyed by the upper-cased parameter name and valued by the
f-string rendering of the parameter value.  (Without the no-collision
proviso a parameter can override a fixed key — the merge is a plain
last-writer-wins dict union; see the counterexample.) -/
theorem c3_get_workflow_command_env :
    ∀ (cfg : WorkflowConfig) (version input : String)
      (email time : Option String) (kwargs : List (String × PyVal)),
      (kwargs.map (fun kv => pyUpper kv.1)).Nodup →
      (∀ kv ∈ kwargs, pyUpper kv.1 ∉ fixedEnvKeys) →
      get_workflow_command cfg version input email time kwargs ≠ none →
      (dictLookup "DATA_PATH"
          (gwcEnv (get_workflow_command cfg version input email time kwargs)) =
        some (cfg.slurm_data_path ++ "/" ++ input)
      ∧ dictLookup "IMAGE_PATH"
          (gwcEnv (get_workflow_command cfg version input email time kwargs)) =
        some (cfg.slurm_images_path ++ "/" ++ cfg.model_path)
      ∧ dictLookup "IMAGE_VERSION"
          (gwcEnv (get_workflow_command cfg version input email time kwargs)) =
        some version
      ∧ (∀ img, (pySplit cfg.model_image "/").get? 1 = some img →
          dictLookup "SINGULARITY_IMAGE"
            (gwcEnv (get_workflow_command cfg version input email time kwargs)) =
          some (img ++ "_" ++ version ++ ".sif"))
      ∧ (∀ kv ∈ kwargs,
          dictLookup (pyUpper kv.1)
            (gwcEnv (get_workflow_command cfg version input email time kwargs)) =
          some kv.2.render)) := by
  intro cfg version input email time kwargs hnd hfixed hsome
  cases himg : (pySplit cfg.model_image "/").get? 1 with
  | none =>
    exfalso
    apply hsome
    simp only [get_workflow_command]
    rw [himg]
  | some img =>
    have hndm : ((kwargs.map (fun kv => (pyUpper kv.1, kv.2.render))).map
        Prod.fst).Nodup := by
      simpa [List.map_map, Function.comp] using hnd
    have hwf : workflow_params_to_envvars kwargs =
        kwargs.map (fun kv => (pyUpper kv.1, kv.2.render)) := by
      unfold workflow_params_to_envvars
      have := dictMerge_fresh (kwargs.map (fun kv => (pyUpper kv.1, kv.2.render)))
        [] (by intro kv _ kv0 h0; simp at h0) hndm
      simpa using this
    have hfresh : ∀ kv ∈ kwargs.map (fun kv => (pyUpper kv.1, kv.2.render)),
        ∀ kv0 ∈ [("DATA_PATH", cfg.slurm_data_path ++ "/" ++ input),
                 ("IMAGE_PATH", cfg.slurm_images_path ++ "/" ++ cfg.model_path),
                 ("IMAGE_VERSION", version),
                 ("SINGULARITY_IMAGE", img ++ "_" ++ version ++ ".sif")],
        kv0.1 ≠ kv.1 := by
      intro kv hkv kv0 hkv0
      obtain ⟨⟨k0, v0⟩, hk0, rfl⟩ := List.mem_map.mp hkv
      have hni := hfixed (k0, v0) hk0
      simp only [fixedEnvKeys, List.mem_cons, List.mem_singleton, not_or] at hni
      simp only [List.mem_cons, List.mem_singleton] at hkv0
      rcases hkv0 with rfl | rfl | rfl | rfl | h0
      · exact fun hcontra => hni.1 hcontra.symm
      · exact fun hcontra => hni.2.1 hcontra.symm
      · exact fun hcontra => hni.2.2.1 hcontra.symm
      · exact fun hcontra => hni.2.2.2.1 hcontra.symm
      · simp at h0
    have henv : gwcEnv (get_workflow_command cfg version input email time kwargs) =
        [("DATA_PATH", cfg.slurm_data_path ++ "/" ++ input),
         ("IMAGE_PATH", cfg.slurm_images_path ++ "/" ++ cfg.model_path),
         ("IMAGE_VERSION", version),
         ("SINGULARITY_IMAGE", img ++ "_" ++ version ++ ".sif")] ++
        kwargs.map (fun kv => (pyUpper kv.1, kv.2.render)) := by
      simp only [get_workflow_command, himg, gwcEnv, Option.map_some, Option.getD_some,
        hwf]
      exact dictMerge_fresh _ _ hfresh hndm
    rw [henv]
    refine ⟨?_, ?_, ?_, ?_, ?_⟩
    · exact dictLookup_append_of_some _ _ _ _ (by simp [dictLookup])
    · exact dictLookup_append_of_some _ _ _ _ (by simp [dictLookup])
    · exact dictLookup_append_of_some _ _ _ _ (by simp [dictLookup])
    · intro img' himg'
      obtain rfl : img = img' := Option.some.inj himg' 
      exact dictLookup_append_of_some _ _ _ _ (by simp [dictLookup])
    · intro kv hkv
      have hnone : dictLookup (pyUpper kv.1)
          [("DATA_PATH", cfg.slurm_data_path ++ "/" ++ input),
           ("IMAGE_PATH", cfg.slurm_images_path ++ "/" ++ cfg.model_path),
           ("IMAGE_VERSION", version),
           ("SINGULARITY_IMAGE", img ++ "_" ++ version ++ ".sif")] = none := by
        apply dictLookup_eq_none
        intro kv0 hkv0
        exact hfresh _ (List.mem_map_of_mem _ hkv) kv0 hkv0
      rw [dictLookup_append_of_none _ _ _ hnone]
      exact dictLookup_of_mem_nodup _ _ _ (List.mem_map_of_mem _ hkv) hndm

/-- **C3** witness: the spec's round-trip example — workflow `cellpose`,
version `v1.2`, input `exp001`, params `prob_threshold = 0.5`,
`nuc_channel = 0` — yields `DATA_PATH`, `PROB_THRESHOLD=0.5`,
`NUC_CHANNEL=0`. -/
theorem c3_get_workflow_command_env_witness :
    get_workflow_command cellposeCfg "v1.2" "exp001" none none
        [("prob_threshold", PyVal.float "0.5"), ("nuc_channel", PyVal.int 0)] ≠ none
    ∧ dictLookup "DATA_PATH"
        (gwcEnv (get_workflow_command cellposeCfg "v1.2" "exp001" none none
          [("prob_threshold", PyVal.float "0.5"), ("nuc_channel", PyVal.int 0)])) =
      some "my-scratch/data/exp001"
    ∧ dictLookup "PROB_THRESHOLD"
        (gwcEnv (get_workflow_command cellposeCfg "v1.2" "exp001" none none
          [("prob_threshold", PyVal.float "0.5"), ("nuc_channel", PyVal.int 0)])) =
      some "0.5"
    ∧ dictLookup "NUC_CHANNEL"
        (gwcEnv (get_workflow_command cellposeCfg "v1.2" "exp001" none none
          [("prob_threshold", PyVal.float "0.5"), ("nuc_channel", PyVal.int 0)])) =
      some "0" := by
  have h := c3_get_workflow_command_env cellposeCfg "v1.2" "exp001" none none
    [("prob_threshold", PyVal.float "0.5"), ("nuc_channel", PyVal.int 0)]
    (by decide) (by decide) (by decide)
  refine ⟨by decide, h.1.trans (by decide), ?_, ?_⟩
  · have := h.2.2.2.2 ("prob_threshold", PyVal.float "0.5") (by decide)
    rw [show pyUpper "prob_threshold" = "PROB_THRESHOLD" by decide] at this
    exact this.trans (by decide)
  · have := h.2.2.2.2 ("nuc_channel", PyVal.int 0) (by decide)
    rw [show pyUpper "nuc_channel" = "NUC_CHANNEL" by decide] at this
    exact this.trans (by decide)

/-- **C3** counterexample: a workflow parameter named `data_path` upper-cases
to the fixed key `DATA_PATH` and overrides it in the merged environment, so
the environment does *not* always map `DATA_PATH` to base data root + input
reference as the claim states for every parameter map. -/
theorem c3_get_workflow_command_env_counterexample :
    dictLookup "DATA_PATH"
      (gwcEnv (get_workflow_command cellposeCfg "v1.2" "exp001" none none
        [("data_path", PyVal.str "boom")])) = some "boom"
    ∧ "boom" ≠ cellposeCfg.slurm_data_path ++ "/" ++ "exp001" := by
  decide

/-- **C6** (confirmed).  Each of the three job-listing functions returns
exactly the reverse of the stripped stdout's lines, so the element at
position `i` of the returned list is the line at position `length - 1 - i`
of the raw chronological listing — newest first. -/
theorem c6_list_jobs_newest_first :
    ∀ stdout : String,
      list_active_jobs stdout = (pySplit (pyStrip stdout) "\n").reverse
      ∧ list_completed_jobs stdout = (pySplit (pyStrip stdout) "\n").reverse
      ∧ list_all_jobs stdout = (pySplit (pyStrip stdout) "\n").reverse
      ∧ (∀ i : Nat, i < (pySplit (pyStrip stdout) "\n").length →
          (list_completed_jobs stdout)[i]? =
            (pySplit (pyStrip stdout) "\n")[(pySplit (pyStrip stdout) "\n").length - 1 - i]?) := by
  intro stdout
  refine ⟨rfl, rfl, rfl, ?_⟩
  intro i hi
  unfold list_completed_jobs
  exact List.getElem?_reverse hi

/-- **C6** witness: for raw listing `101\n102\n103\n`, position 0 of the
returned list is the raw listing's last id (`103`). -/
theorem c6_list_jobs_newest_first_witness :
    0 < (pySplit (pyStrip "101\n102\n103\n") "\n").length
    ∧ (list_completed_jobs "101\n102\n103\n")[0]? =
        (pySplit (pyStrip "101\n102\n103\n") "\n")[(pySplit (pyStrip "101\n102\n103\n") "\n").length - 1 - 0]? :=
  ⟨by decide, (c6_list_jobs_newest_first "101\n102\n103\n").2.2.2 0 (by decide)⟩

set_option maxRecDepth 8192 in
/-- **C7** (confirmed).  `get_unzip_command` renders one command that
`mkdir`s the archive root plus `data`, `data/in`, `data/out`, `data/gt` and
extracts exactly the files matching the filter into `data/in`: a `None`
filter renders the same command as the wildcard `*` (no file-type filter);
`job42` with `None` and with `*.png` render the two commands of the spec's
example; `unpack_data` defaults the filter to the TIFF family
`*.tiff *.tif`; and for all paths and filters the command decomposes into
the mkdir skeleton followed by the `7z` extraction into `data/in` ending in
the filter globs. -/
theorem c7_get_unzip_command :
    (∀ p z : String, get_unzip_command p z none = get_unzip_command p z (some "*"))
    ∧ get_unzip_command "my-scratch/data" "job42" none =
        "mkdir my-scratch/data/job42" ++ sep21 ++
        "my-scratch/data/job42/data" ++ sep21 ++
        "my-scratch/data/job42/data/in" ++ sep21 ++
        "my-scratch/data/job42/data/out" ++ sep21 ++
        "my-scratch/data/job42/data/gt;" ++ sep21 ++
        "7z e -y -omy-scratch/data/job42/data/in" ++ sep21 ++
        "my-scratch/data/job42.zip *"
    ∧ get_unzip_command "my-scratch/data" "job42" (some "*.png") =
        "mkdir my-scratch/data/job42" ++ sep21 ++
        "my-scratch/data/job42/data" ++ sep21 ++
        "my-scratch/data/job42/data/in" ++ sep21 ++
        "my-scratch/data/job42/data/out" ++ sep21 ++
        "my-scratch/data/job42/data/gt;" ++ sep21 ++
        "7z e -y -omy-scratch/data/job42/data/in" ++ sep21 ++
        "my-scratch/data/job42.zip *.png"
    ∧ (∀ p z : String, unpack_data_command p z = get_unzip_command p z (some "*.tiff *.tif"))
    ∧ (∀ p z ff : String,
        get_unzip_command p z (some ff) =
          "mkdir " ++ (p ++ "/" ++ z) ++ sep21 ++
          ((p ++ "/" ++ z) ++ "/data") ++ sep21 ++
          ((p ++ "/" ++ z) ++ "/data/in") ++ sep21 ++
          ((p ++ "/" ++ z) ++ "/data/out") ++ sep21 ++
          ((p ++ "/" ++ z) ++ "/data/gt") ++ (";" ++ sep21) ++
          ("7z e -y -o" ++ (p ++ "/" ++ z) ++ "/data/in") ++ sep21 ++
          ((p ++ "/" ++ z) ++ ".zip ") ++ ff) := by
  refine ⟨fun p z => rfl, by rfl, by rfl, fun p z => rfl, ?_⟩
  intro p z ff
  apply strExt
  have hgt : ("/data/gt;" : String).data =
      ("/data/gt" : String).data ++ (";" : String).data := rfl
  simp [get_unzip_command, str_data_append, List.append_assoc, hgt]

/-- **C8** (confirmed).  The rendered submission command emits a
`" --time=..."` piece exactly when a time limit is provided and a
`" --mail-user=..."` piece exactly when an email is provided (an absent
option contributes the empty string and a present one a nonempty flag); the
constant log pattern `--output=omero-%4j.log` occurs in every rendered
command; the command string never depends on the workflow parameters (they
travel only in the environment map); concrete rendered commands contain the
flag text iff the option was given; and the older CellPose-script builder
has the same shape and the same parameter independence. -/
theorem c8_submission_command_flags :
    (∀ (cfg : WorkflowConfig) (version input : String)
       (email time : Option String) (kwargs : List (String × PyVal))
       (cmd : String) (env : List (String × String)),
        get_workflow_command cfg version input email time kwargs = some (cmd, env) →
        cmd = "sbatch" ++ optFlag "time" time ++ optFlag "mail-user" email ++
          " --output=omero-%4j.log             " ++
          cfg.slurm_script_path ++ "/" ++ cfg.job_script)
    ∧ (∀ (flag : String) (x : Option String), optFlag flag x = "" ↔ x = none)
    ∧ (∀ (cfg : WorkflowConfig) (version input : String)
        (email time : Option String) (kwargs : List (String × PyVal)),
        get_workflow_command cfg version input email time kwargs ≠ none →
        strContains (gwcCmd (get_workflow_command cfg version input email time kwargs))
          "--output=omero-%4j.log" = true)
    ∧ (∀ (cfg : WorkflowConfig) (version input : String)
        (email time : Option String) (kwargs1 kwargs2 : List (String × PyVal)),
        gwcCmd (get_workflow_command cfg version input email time kwargs1) =
        gwcCmd (get_workflow_command cfg version input email time kwargs2))
    ∧ strContains (gwcCmd (get_workflow_command cellposeCfg "v1.2" "exp001"
        none none [("prob_threshold", PyVal.float "0.5")])) "--time=" = false
    ∧ strContains (gwcCmd (get_workflow_command cellposeCfg "v1.2" "exp001"
        none none [("prob_threshold", PyVal.float "0.5")])) "--mail-user=" = false
    ∧ strContains (gwcCmd (get_workflow_command cellposeCfg "v1.2" "exp001"
        (some "user@example.org") (some "00:15:00") [])) "--time=" = true
    ∧ strContains (gwcCmd (get_workflow_command cellposeCfg "v1.2" "exp001"
        (some "user@example.org") (some "00:15:00") [])) "--mail-user=" = true
    ∧ (∀ (dp ip sp iv ind cp : String) (nc pt cd : PyVal)
        (email time : Option String) (model js : String),
        (get_cellpose_command_script dp ip sp iv ind cp nc pt cd email time model js).1 =
          "sbatch" ++ optFlag "time" time ++ optFlag "mail-user" email ++
          " --output=omero-%4j.log " ++ sp ++ "/jobs/" ++ js)
    ∧ (∀ (dp ip sp iv ind cp cp' : String) (nc nc' pt pt' cd cd' : PyVal)
        (email time : Option String) (model js : String),
        (get_cellpose_command_script dp ip sp iv ind cp nc pt cd email time model js).1 =
        (get_cellpose_command_script dp ip sp iv ind cp' nc' pt' cd' email time model js).1) := by
  refine ⟨?_, ?_, ?_, ?_, by decide, by decide, by decide, by decide, ?_, ?_⟩
  · intro cfg version input email time kwargs cmd env h
    unfold get_workflow_command at h
    cases himg : (pySplit cfg.model_image "/").get? 1 with
    | none =>
      rw [himg] at h
      cases h
    | some img =>
      rw [himg] at h
      injection h with h'
      injection h' with hcmd henv2
      subst hcmd
      apply strExt
      have hout : (" --output=omero-%4j.log             " : String).data =
          (" --output=omero-%4j.log " : String).data ++
          ("            " : String).data := rfl
      simp [str_data_append, List.append_assoc, hout]
  · intro flag x
    cases x with
    | none => simp [optFlag]
    | some v =>
      simp only [optFlag]
      constructor
      · intro hcontra
        exact absurd hcontra
          (str_append_ne_empty_of_head ' ' ('-' :: '-' :: (flag.data ++ [('=' : Char)]))
            _ v (by simp [str_data_append]))
      · intro hcontra
        cases hcontra
  · intro cfg version input email time kwargs hne
    cases himg : (pySplit cfg.model_image "/").get? 1 with
    | none =>
      exfalso
      apply hne
      simp only [get_workflow_command]
      rw [himg]
    | some img =>
      have hcmd : gwcCmd (get_workflow_command cfg version input email time kwargs) =
          "sbatch" ++ (optFlag "time" time ++ optFlag "mail-user" email) ++
          " --output=omero-%4j.log " ++ "            " ++
          cfg.slurm_script_path ++ "/" ++ cfg.job_script := by
        simp only [get_workflow_command]
        rw [himg]
        rfl
      rw [hcmd]
      unfold strContains
      simp only [str_data_append, List.append_assoc]
      apply listSub_extend_left
      apply listSub_extend_left
      apply listSub_extend_left
      apply listSub_extend_right
      decide
  · intro cfg version input email time kwargs1 kwargs2
    cases himg : (pySplit cfg.model_image "/").get? 1 with
    | none =>
      simp only [gwcCmd, get_workflow_command]
      rw [himg]
    | some img =>
      simp only [gwcCmd, get_workflow_command]
      rw [himg]
      rfl
  · intro dp ip sp iv ind cp nc pt cd email time model js
    apply strExt
    simp [get_cellpose_command_script, str_data_append, List.append_assoc]
  · intro dp ip sp iv ind cp cp' nc nc' pt pt' cd cd' email time model js
    rfl

/-- **C8** witness: the emission-shape component applied to the concrete
cellpose configuration with both options provided. -/
theorem c8_submission_command_flags_witness :
    get_workflow_command cellposeCfg "v1.2" "exp001" (some "user@example.org")
      (some "00:15:00") [] =
      some ("sbatch --time=00:15:00 --mail-user=user@example.org " ++
        "--output=omero-%4j.log             slurm-scripts/jobs/cellpose.sh",
        gwcEnv (get_workflow_command cellposeCfg "v1.2" "exp001"
          (some "user@example.org") (some "00:15:00") []))
    ∧ gwcCmd (get_workflow_command cellposeCfg "v1.2" "exp001"
        (some "user@example.org") (some "00:15:00") []) =
      "sbatch" ++ optFlag "time" (some "00:15:00") ++
        optFlag "mail-user" (some "user@example.org") ++
        " --output=omero-%4j.log             " ++
        cellposeCfg.slurm_script_path ++ "/" ++ cellposeCfg.job_script := by
  refine ⟨by decide, ?_⟩
  have h := c8_submission_command_flags.1 cellposeCfg "v1.2" "exp001"
    (some "user@example.org") (some "00:15:00") []
    (gwcCmd (get_workflow_command cellposeCfg "v1.2" "exp001"
      (some "user@example.org") (some "00:15:00") []))
    (gwcEnv (get_workflow_command cellposeCfg "v1.2" "exp001"
      (some "user@example.org") (some "00:15:00") []))
    (by decide)
  exact h

theorem zipSortedVersions_spec :
    ∀ (keys : List String) (rs : List (List String))
      (d : List (String × List String)),
      zipSortedVersions keys rs = some d →
      d = (keys.zip rs).map (fun pr => (pr.1, sortedDesc pr.2)) := by
  intro keys
  induction keys with
  | nil =>
    intro rs d h
    injection h with h
    subst h
    simp
  | cons k ks ih =>
    intro rs d h
    cases rs with
    | nil => cases h
    | cons r rs' =>
      simp only [zipSortedVersions] at h
      cases hz : zipSortedVersions ks rs' with
      | none => rw [hz] at h; cases h
      | some t =>
        rw [hz] at h
        injection h with h
        subst h
        rw [ih rs' t hz]
        simp

/-- **C9** (confirmed).  `get_image_versions_and_data_files` returns the
image versions sorted descending (a `strGe`-sorted permutation of the raw
listing's lines) together with the data files in raw listing order, and
`get_all_image_versions_and_data_files` pairs each model key, in order, with
the descending sort of its response's lines while returning the last
response's lines (the data files) unsorted. -/
theorem c9_image_versions_sorted :
    (∀ (result : CmdResult) (vs ds : List String) (rest : List (List String)),
        result.ok = true →
        (pySplit result.stdout outSep).map (fun r => pySplit (pyStrip r) "\n") =
          vs :: ds :: rest →
        get_image_versions_and_data_files result = .ok (sortedDesc vs, ds)
        ∧ List.Sorted strGe (sortedDesc vs)
        ∧ (sortedDesc vs).Perm vs)
    ∧ (∀ (model_keys : List String) (result : CmdResult)
        (dict : List (String × List String)) (dataFiles : List String),
        get_all_image_versions_and_data_files model_keys result = .ok (dict, dataFiles) →
        dict = (model_keys.zip
            ((pySplit result.stdout outSep).map (fun r => pySplit (pyStrip r) "\n"))).map
            (fun pr => (pr.1, sortedDesc pr.2))
        ∧ (∀ pr ∈ dict, List.Sorted strGe pr.2)
        ∧ ((pySplit result.stdout outSep).map
            (fun r => pySplit (pyStrip r) "\n")).getLast? = some dataFiles) := by
  constructor
  · intro result vs ds rest hok hsplit
    refine ⟨?_, List.sorted_insertionSort strGe vs, List.perm_insertionSort strGe vs⟩
    simp only [get_image_versions_and_data_files, run_commands_split_out, hok,
      if_true, hsplit]
  · intro model_keys result dict dataFiles h
    unfold get_all_image_versions_and_data_files run_commands_split_out at h
    cases hok : result.ok with
    | false => rw [hok] at h; simp at h
    | true =>
      rw [hok] at h
      simp only [if_true] at h
      cases hz : zipSortedVersions model_keys
          ((pySplit result.stdout outSep).map (fun r => pySplit (pyStrip r) "\n")) with
      | none => rw [hz] at h; simp at h
      | some d' =>
        rw [hz] at h
        cases hl : ((pySplit result.stdout outSep).map
            (fun r => pySplit (pyStrip r) "\n")).getLast? with
        | none => rw [hl] at h; simp at h
        | some last =>
          rw [hl] at h
          simp only [Except.ok.injEq, Prod.mk.injEq] at h
          obtain ⟨rfl, rfl⟩ := h
          have hd := zipSortedVersions_spec model_keys _ d' hz
          refine ⟨hd, ?_, rfl⟩
          intro pr hpr
          rw [hd] at hpr
          obtain ⟨⟨k0, r0⟩, _, rfl⟩ := List.mem_map.mp hpr
          exact List.sorted_insertionSort strGe r0

/-- **C9** witness: a concrete two-command response — versions listed as
`v1.0, v1.3, v1.2`, data files `a.zip, b.zip` — is returned with versions
sorted descending and data files in raw order. -/
theorem c9_image_versions_sorted_witness :
    CmdResult.ok ⟨true, "v1.0\nv1.3\nv1.2--split--a.zip\nb.zip", ""⟩ = true
    ∧ get_image_versions_and_data_files
        ⟨true, "v1.0\nv1.3\nv1.2--split--a.zip\nb.zip", ""⟩ =
      .ok (sortedDesc ["v1.0", "v1.3", "v1.2"], ["a.zip", "b.zip"]) :=
  ⟨rfl,
   ((c9_image_versions_sorted.1 ⟨true, "v1.0\nv1.3\nv1.2--split--a.zip\nb.zip", ""⟩
     ["v1.0", "v1.3", "v1.2"] ["a.zip", "b.zip"] [] rfl (by decide)).1)⟩

/-- **C10** (confirmed).  When the accounting query succeeds with empty or
whitespace-only stdout, each job-listing function returns the one-element
list `[""]` — `"".split("\n")` is `[""]`, never the empty list. -/
theorem c10_empty_stdout_singleton :
    ∀ stdout : String, (∀ c ∈ stdout.data, isPySpace c = true) →
      list_active_jobs stdout = [""]
      ∧ list_completed_jobs stdout = [""]
      ∧ list_all_jobs stdout = [""] := by
  intro stdout h
  have h1 : stdout.data.dropWhile isPySpace = [] := List.dropWhile_eq_nil_iff.mpr h
  have hstrip : pyStrip stdout = "" := by
    unfold pyStrip pyStripList
    rw [h1]
    rfl
  refine ⟨?_, ?_, ?_⟩
  · unfold list_active_jobs; rw [hstrip]; decide
  · unfold list_completed_jobs; rw [hstrip]; decide
  · unfold list_all_jobs; rw [hstrip]; decide

/-- **C10** witness: the whitespace-only stdout `"  \n\t"` yields `[""]`. -/
theorem c10_empty_stdout_singleton_witness :
    (∀ c ∈ ("  \n\t" : String).data, isPySpace c = true)
    ∧ list_active_jobs "  \n\t" = [""] :=
  ⟨by decide, (c10_empty_stdout_singleton "  \n\t" (by decide)).1⟩

end SlurmSpec
